import Mathlib

/-!
# Verification of the codex Linux sandbox core and TUI state components

This file gives a shallow embedding of:

* the file-search popup state machine
  (`codex-rs/tui/src/bottom_pane/file_search_popup.rs`),
* the usage status bar (`codex-rs/tui/src/usage_status_bar/mod.rs`),
* the sandbox execution pipeline (Policy Model, Rule Resolver, Sandboxed
  Executor and Outcome Classifier), modelled from the design document since
  the enforcement engine itself ships as a separate crate; its in-repo test
  suite (`codex-rs/linux-sandbox/tests/suite/landlock.rs`) pins the observable
  behaviour.

All definitions are executable; machine floats (`f64` percentages) are
modelled as exact rationals, and filesystem paths as lists of components.
-/

namespace Codex

/-! ## File-search popup (tui/src/bottom_pane/file_search_popup.rs) -/

/-- `FileMatch` from the `codex-file-search` crate, with the fields used by the
popup and its in-repo tests: a score, a path relative to the search dir, and
optional highlight indices. -/
structure FileMatch where
  score : Nat
  path : String
  indices : Option (List Nat)
deriving Repr, DecidableEq

/-- Modelled from the spec: `MAX_POPUP_ROWS` lives in
`bottom_pane/popup_consts.rs`, which is not among the sources; the in-repo
tests of `file_search_popup.rs` pin it to 8 ("MAX_POPUP_ROWS = 8, so items 0-7
should have scroll_top = 0"). -/
def MAX_POPUP_ROWS : Nat := 8

/-- Modelled from the spec: `ScrollState` lives in
`bottom_pane/scroll_state.rs`, which is not among the sources.  Its behaviour
is reconstructed from the in-repo tests of `file_search_popup.rs`: a selection
that is an optional index plus the index of the first visible row. -/
structure ScrollState where
  selected_idx : Option Nat
  scroll_top : Nat
deriving Repr, DecidableEq

namespace ScrollState

/-- Modelled from the spec: fresh scroll state, no selection, scrolled to
the top. -/
def new : ScrollState := { selected_idx := none, scroll_top := 0 }

/-- Modelled from the spec: `ScrollState::reset`, called by
`FileSearchPopup::set_query` when the existing matches are discarded. -/
def reset (_s : ScrollState) : ScrollState := { selected_idx := none, scroll_top := 0 }

/-- Modelled from the spec: `ScrollState::clamp_selection(len)`.  The in-repo
tests pin it: with no selection and a non-empty list the first row becomes
selected (`set_matches` leaves `selected_idx = Some(0)`), an out-of-range
selection is clamped to the last row (`test_set_matches_clamps_selection`),
and an empty list clears the selection. -/
def clamp_selection (s : ScrollState) (len : Nat) : ScrollState :=
  if len = 0 then { s with selected_idx := none }
  else
    match s.selected_idx with
    | none => { s with selected_idx := some 0 }
    | some i => { s with selected_idx := some (min i (len - 1)) }

/-- Modelled from the spec: `ScrollState::move_up(len)`.  The in-repo tests
pin it: the selection decreases by one and does not wrap
(`test_scroll_up_basic`). -/
def move_up (s : ScrollState) (_len : Nat) : ScrollState :=
  match s.selected_idx with
  | none => { s with selected_idx := some 0 }
  | some i => { s with selected_idx := some (i - 1) }

/-- Modelled from the spec: `ScrollState::move_down(len)`.  The in-repo tests
pin it: the selection increases by one and saturates at the last row
(`test_all_results_scrollable`: "Should stop at last item"). -/
def move_down (s : ScrollState) (len : Nat) : ScrollState :=
  match s.selected_idx with
  | none => { s with selected_idx := some 0 }
  | some i => { s with selected_idx := some (min (i + 1) (len - 1)) }

end ScrollState

/-- `str::starts_with` on the underlying character sequences. -/
def strStartsWith (s pre : String) : Bool := pre.data.isPrefixOf s.data

/-- Visual state for the file-search popup, field for field from
`FileSearchPopup` in `file_search_popup.rs`. -/
structure FileSearchPopup where
  display_query : String
  pending_query : String
  waiting : Bool
  matches_ : List FileMatch
  displayed_count : Nat
  state : ScrollState
deriving Repr, DecidableEq

namespace FileSearchPopup

/-- `FileSearchPopup::new`. -/
def new : FileSearchPopup :=
  { display_query := ""
    pending_query := ""
    waiting := false
    matches_ := []
    displayed_count := 0
    state := ScrollState.new }

/-- `FileSearchPopup::set_query`: record the latest query, mark the popup as
waiting, and drop the current matches unless the new query extends the one
the matches were computed for. -/
def set_query (p : FileSearchPopup) (query : String) : FileSearchPopup :=
  let keep_existing := strStartsWith query p.display_query
  let p1 := { p with pending_query := query, waiting := true }
  if keep_existing then p1
  else { p1 with matches_ := [], displayed_count := 0, state := p1.state.reset }

/-- `FileSearchPopup::set_matches`: ignore stale results (query differs from
`pending_query` and they are not both empty), otherwise install the matches,
clear the waiting flag and clamp the selection. -/
def set_matches (p : FileSearchPopup) (query : String) (ms : List FileMatch) :
    FileSearchPopup :=
  if query ≠ p.pending_query ∧ ¬(query = "" ∧ p.pending_query = "") then p
  else
    let p1 := { p with
      display_query := query
      matches_ := ms
      waiting := false
      displayed_count := ms.length }
    { p1 with state := p1.state.clamp_selection p1.displayed_count }

/-- `FileSearchPopup::ensure_selection_visible`: scroll so that the selection
lies in the window `[scroll_top, scroll_top + MAX_POPUP_ROWS)`. -/
def ensure_selection_visible (p : FileSearchPopup) : FileSearchPopup :=
  match p.state.selected_idx with
  | some sel =>
    if sel < p.state.scroll_top then
      { p with state := { p.state with scroll_top := sel } }
    else if sel ≥ p.state.scroll_top + MAX_POPUP_ROWS then
      { p with state := { p.state with scroll_top := sel + 1 - MAX_POPUP_ROWS } }
    else p
  | none => { p with state := { p.state with scroll_top := 0 } }

/-- `FileSearchPopup::move_up`. -/
def move_up (p : FileSearchPopup) : FileSearchPopup :=
  if p.displayed_count = 0 then p
  else ensure_selection_visible
    { p with state := p.state.move_up p.displayed_count }

/-- `FileSearchPopup::move_down`. -/
def move_down (p : FileSearchPopup) : FileSearchPopup :=
  if p.displayed_count = 0 then p
  else ensure_selection_visible
    { p with state := p.state.move_down p.displayed_count }

/-- `FileSearchPopup::selected_match`. -/
def selected_match (p : FileSearchPopup) : Option String :=
  (p.state.selected_idx.bind (fun idx => p.matches_[idx]?)).map (fun m => m.path)

end FileSearchPopup

/-- The public operations a caller can perform on a `FileSearchPopup` after
construction. -/
inductive PopupOp where
  | setQuery (q : String)
  | setMatches (q : String) (ms : List FileMatch)
  | moveUp
  | moveDown
deriving Repr

/-- Apply one popup operation. -/
def applyOp (p : FileSearchPopup) : PopupOp → FileSearchPopup
  | .setQuery q => p.set_query q
  | .setMatches q ms => p.set_matches q ms
  | .moveUp => p.move_up
  | .moveDown => p.move_down

/-- Run a sequence of popup operations from a starting state. -/
def runPopupOps (ops : List PopupOp) (p : FileSearchPopup) : FileSearchPopup :=
  ops.foldl applyOp p

/-! ## Usage status bar (tui/src/usage_status_bar/mod.rs) -/

/-- One rate-limit window as displayed (`RateLimitWindowDisplay`); the `f64`
`used_percent` is modelled as an exact rational. -/
structure RateLimitWindowDisplay where
  used_percent : Rat
  resets_at : Option String
  window_minutes : Option Nat
deriving Repr, DecidableEq

/-- `RateLimitSnapshotDisplay`: optional primary and secondary windows. -/
structure RateLimitSnapshotDisplay where
  primary : Option RateLimitWindowDisplay
  secondary : Option RateLimitWindowDisplay
deriving Repr, DecidableEq

/-- `THRESHOLD_PERCENT = 70.0`. -/
def THRESHOLD_PERCENT : Rat := 70

/-- `SIGNIFICANT_CHANGE_THRESHOLD = 5.0`. -/
def SIGNIFICANT_CHANGE_THRESHOLD : Rat := 5

/-- `UsageStatusText` returned by `get_footer_text`. -/
structure UsageStatusText where
  text : String
  at_limit : Bool
deriving Repr, DecidableEq

/-- Data about the most urgent window (`UrgentWindowInfo`). -/
structure UrgentWindowInfo where
  percent : Rat
  reset_at : Option String
  window_label : String
deriving Repr, DecidableEq

/-- `UsageStatusBar`: the current snapshot, if any, and the dismissed flag. -/
structure UsageStatusBar where
  snapshot : Option RateLimitSnapshotDisplay
  dismissed : Bool
deriving Repr, DecidableEq

namespace UsageStatusBar

/-- `UsageStatusBar::new`. -/
def new : UsageStatusBar := { snapshot := none, dismissed := false }

/-- `UsageStatusBar::max_percent_from_snapshot`. -/
def max_percent_from_snapshot (s : RateLimitSnapshotDisplay) : Option Rat :=
  match s.primary.map (fun w => w.used_percent),
        s.secondary.map (fun w => w.used_percent) with
  | some p, some q => some (max p q)
  | some p, none => some p
  | none, some q => some q
  | none, none => none

/-- `UsageStatusBar::has_significant_change`. -/
def has_significant_change (old nw : RateLimitSnapshotDisplay) : Bool :=
  match max_percent_from_snapshot old, max_percent_from_snapshot nw with
  | some a, some b => decide (|b - a| ≥ SIGNIFICANT_CHANGE_THRESHOLD)
  | none, some _ => true
  | some _, none => true
  | none, none => false

/-- The `should_reset_dismiss` computation inside
`UsageStatusBar::update_snapshot`. -/
def resets_dismiss (bar : UsageStatusBar) (snap : Option RateLimitSnapshotDisplay) :
    Bool :=
  match bar.snapshot, snap with
  | some old, some nw => has_significant_change old nw
  | none, some _ => true
  | _, _ => false

/-- `UsageStatusBar::update_snapshot`: install the new snapshot; clear the
dismissed flag exactly when the update is a significant arrival. -/
def update_snapshot (bar : UsageStatusBar) (snap : Option RateLimitSnapshotDisplay) :
    UsageStatusBar :=
  { snapshot := snap
    dismissed := if resets_dismiss bar snap then false else bar.dismissed }

/-- `UsageStatusBar::dismiss`. -/
def dismiss (bar : UsageStatusBar) : UsageStatusBar := { bar with dismissed := true }

/-- `UsageStatusBar::should_show`. -/
def should_show (bar : UsageStatusBar) : Bool :=
  if bar.dismissed then false
  else
    match bar.snapshot with
    | none => false
    | some snapshot =>
      let primary_exceeds := match snapshot.primary with
        | some w => decide (w.used_percent ≥ THRESHOLD_PERCENT)
        | none => false
      let secondary_exceeds := match snapshot.secondary with
        | some w => decide (w.used_percent ≥ THRESHOLD_PERCENT)
        | none => false
      primary_exceeds || secondary_exceeds

/-- `format_window_duration`, parameterised by `get_limits_duration` (defined
in `chatwidget`, outside the sandbox core and outside the sources). -/
def format_window_duration (gld : Nat → String) (window_minutes : Option Nat)
    (dflt : String) : String :=
  match window_minutes with
  | some m => gld m
  | none => dflt

/-- `UsageStatusBar::get_urgent_window_info`, parameterised by
`get_limits_duration`. -/
def get_urgent_window_info (gld : Nat → String) (bar : UsageStatusBar) :
    Option UrgentWindowInfo :=
  match bar.snapshot with
  | none => none
  | some snapshot =>
    let primary_data : Option UrgentWindowInfo := match snapshot.primary with
      | some w =>
        if w.used_percent ≥ THRESHOLD_PERCENT then
          some { percent := w.used_percent
                 reset_at := w.resets_at
                 window_label := format_window_duration gld w.window_minutes "5h" }
        else none
      | none => none
    let secondary_data : Option UrgentWindowInfo := match snapshot.secondary with
      | some w =>
        if w.used_percent ≥ THRESHOLD_PERCENT then
          some { percent := w.used_percent
                 reset_at := w.resets_at
                 window_label := format_window_duration gld w.window_minutes "weekly" }
        else none
      | none => none
    match primary_data, secondary_data with
    | some p, some s => some (if p.percent ≥ s.percent then p else s)
    | some p, none => some p
    | none, some s => some s
    | none, none => none

/-- `UsageStatusBar::get_footer_text`, parameterised by `get_limits_duration`
and by the `{percent:.0}` float renderer `fmt0`. -/
def get_footer_text (gld : Nat → String) (fmt0 : Rat → String)
    (bar : UsageStatusBar) : Option UsageStatusText :=
  if bar.should_show then
    match bar.get_urgent_window_info gld with
    | none => none
    | some info =>
      let reset_text := match info.reset_at with
        | some r => " (resets " ++ r ++ ")"
        | none => ""
      let at_limit := decide (info.percent ≥ 100)
      let label_text :=
        if info.window_label = "weekly" ∨ info.window_label = "monthly" ∨
            info.window_label = "annual"
        then info.window_label ++ " limit"
        else "limit"
      let text :=
        if at_limit then label_text ++ " reached" ++ reset_text
        else fmt0 info.percent ++ "% of " ++ label_text ++ reset_text
      some { text := text, at_limit := at_limit }
  else none

/-- Fold a sequence of snapshot updates into the bar. -/
def update_many (bar : UsageStatusBar)
    (snaps : List (Option RateLimitSnapshotDisplay)) : UsageStatusBar :=
  snaps.foldl update_snapshot bar

/-- No update in the sequence is a significant arrival (none of them resets
the dismissed flag), tracking the evolving snapshot. -/
def no_significant_arrival (bar : UsageStatusBar) :
    List (Option RateLimitSnapshotDisplay) → Bool
  | [] => true
  | s :: rest => !resets_dismiss bar s && no_significant_arrival (bar.update_snapshot s) rest

end UsageStatusBar

/-! ## Sandbox core (linux-sandbox / core exec pipeline)

The enforcement engine (`process_exec_tool_call` and the crates behind it) is
exercised here only through its test suite; the definitions below are
modelled from the design document (sections 3 to 4.5) and carry a
`Modelled from the spec:` marker. -/

/-- An absolute filesystem path, as its list of components
(`/tmp/x` is `["tmp", "x"]`). -/
abbrev FsPath := List String

/-- `SandboxPolicy` (`codex_core::protocol::SandboxPolicy`): `ReadOnly` denies
all writes and network; `WorkspaceWrite` grants the listed roots and carries
the network flag and the tmp-exclusion flags. -/
inductive SandboxPolicy where
  | readOnly
  | workspaceWrite (writable_roots : List FsPath) (network_access : Bool)
      (exclude_tmpdir_env_var : Bool) (exclude_slash_tmp : Bool)
deriving Repr, DecidableEq

/-- The policy's network flag (`false` for `ReadOnly`). -/
def SandboxPolicy.network_access : SandboxPolicy → Bool
  | .readOnly => false
  | .workspaceWrite _ net _ _ => net

/-- The environment mapping seen by the resolver, with path-valued variables
already split into components. -/
abbrev EnvMap := List (String × FsPath)

/-- Look a variable up in the environment mapping. -/
def lookupEnv (env : EnvMap) (k : String) : Option FsPath :=
  (env.find? (fun kv => kv.1 == k)).map (fun kv => kv.2)

/-- `ResolvedRules`: the concrete write regions, the reserved read-only
subtrees, and the network-allow flag derived from a policy. -/
structure ResolvedRules where
  writable : List FsPath
  reserved_readonly : List FsPath
  network_allowed : Bool
deriving Repr, DecidableEq

/-- Modelled from the spec: the Rule Resolver
`resolve(policy, cwd, env) -> ResolvedRules` of section 4.1, whose
implementation is not among the sources.  Default stance is read-only and no
network; `WorkspaceWrite` adds the listed roots and, per caller convention,
`cwd`; every `<root>/.git` and `<root>/.codex` becomes a reserved read-only
subtree; the `TMPDIR` path and `/tmp` are removed from the writable set when
the corresponding exclusion flag is set. -/
def resolve (policy : SandboxPolicy) (cwd : FsPath) (env : EnvMap) : ResolvedRules :=
  match policy with
  | .readOnly => { writable := [], reserved_readonly := [], network_allowed := false }
  | .workspaceWrite roots net exTmpEnv exSlashTmp =>
    let baseRoots := cwd :: roots
    let excluded : List FsPath :=
      (if exTmpEnv then (lookupEnv env "TMPDIR").toList else []) ++
        (if exSlashTmp then [["tmp"]] else [])
    { writable := baseRoots.filter (fun r => !excluded.contains r)
      reserved_readonly :=
        baseRoots.flatMap (fun r => [r ++ [".git"], r ++ [".codex"]])
      network_allowed := net }

/-- `root.isPrefixOf p`: `p` lies in the subtree rooted at `root`. -/
def isUnder (root p : FsPath) : Bool := root.isPrefixOf p

/-- The null device `/dev/null`. -/
def devNull : FsPath := ["dev", "null"]

/-- Modelled from the spec: the write surface programmed by the Filesystem
Rule Applier (section 4.2) — write access scoped to `writable` minus
`reserved_readonly` (a more specific deny overrides a broader allow), with
`/dev/null` always permitted since it is not part of the real filesystem's
write surface (section 4.1, edge cases). -/
def writeAllowed (rules : ResolvedRules) (p : FsPath) : Bool :=
  p == devNull ||
    (rules.writable.any (fun r => isUnder r p) &&
      !rules.reserved_readonly.any (fun r => isUnder r p))

/-- The observable actions of a sandboxed command: writing a path, reading a
path, originating a network connection (socket/connect-class syscalls, raw
ICMP, name resolution, `/dev/tcp`), or sleeping for some milliseconds. -/
inductive Op where
  | writeFile (p : FsPath)
  | readFile (p : FsPath)
  | netConnect
  | sleep (ms : Nat)
deriving Repr, DecidableEq

/-- The raw status of the finished (or killed) command as seen by the
executor: exit code, captured output, whether a signal positively
attributable to a sandbox denial killed it, and how long it ran. -/
structure RunResult where
  exit_code : Int
  stdout : String
  stderr : String
  denied_signal : Bool
  duration_ms : Nat
deriving Repr, DecidableEq

/-- Modelled from the spec: the sandboxed command running under the applied
rules (sections 4.2 and 4.3).  Reads are always allowed (broad read access);
a denied write or a denied network syscall surfaces to the program as a
permission error, which the program reports as an ordinary non-zero exit
(section 4.5); sleeping accumulates run time. -/
def runOps (rules : ResolvedRules) : List Op → RunResult
  | [] => { exit_code := 0, stdout := "", stderr := "", denied_signal := false,
            duration_ms := 0 }
  | op :: rest =>
    match op with
    | .writeFile p =>
      if writeAllowed rules p then runOps rules rest
      else { exit_code := 1, stdout := "", stderr := "", denied_signal := false,
             duration_ms := 0 }
    | .readFile _ => runOps rules rest
    | .netConnect =>
      if rules.network_allowed then runOps rules rest
      else { exit_code := 1, stdout := "", stderr := "", denied_signal := false,
             duration_ms := 0 }
    | .sleep ms =>
      let r := runOps rules rest
      { r with duration_ms := ms + r.duration_ms }

/-- `ExecParams`: the command (as its observable actions), the optional
timeout, the escalation flag and the justification text, as in
`codex_core::exec::ExecParams`. -/
structure ExecParams where
  ops : List Op
  timeout_ms : Option Nat
  with_escalated_permissions : Option Bool
  justification : Option String
deriving Repr, DecidableEq

/-- `ExecOutput`: exit code and captured output. -/
structure ExecOutput where
  exit_code : Int
  stdout : String
  stderr : String
deriving Repr, DecidableEq

/-- `SandboxErr`: a positively attributable denial carrying the captured
output, or a timeout. -/
inductive SandboxErr where
  | denied (output : ExecOutput)
  | timeout
deriving Repr, DecidableEq

/-- Modelled from the spec: the Outcome Classifier
`classify(raw_status, captured_output, was_timeout)` of section 4.5.  The
timeout path always yields the Timeout error kind; a denial-attributable kill
signal yields `Denied` with the captured output; everything else is `Ok`,
even with a non-zero exit code. -/
def classify (r : RunResult) (was_timeout : Bool) : Except SandboxErr ExecOutput :=
  if was_timeout then .error .timeout
  else if r.denied_signal then
    .error (.denied { exit_code := r.exit_code, stdout := r.stdout, stderr := r.stderr })
  else .ok { exit_code := r.exit_code, stdout := r.stdout, stderr := r.stderr }

/-- Modelled from the spec: `process_exec_tool_call` — the Sandboxed Executor
of section 4.4.  It resolves the policy, runs the command under the resolved
rules, races completion against the timer derived from `timeout_ms`, and
hands the raw status to the Outcome Classifier. -/
def process_exec_tool_call (params : ExecParams) (policy : SandboxPolicy)
    (cwd : FsPath) (env : EnvMap) : Except SandboxErr ExecOutput :=
  let rules := resolve policy cwd env
  let r := runOps rules params.ops
  let was_timeout :=
    match params.timeout_ms with
    | some t => decide (t < r.duration_ms)
    | none => false
  classify r was_timeout

/-- Modelled from the spec: the wall-clock time the executor holds the child
before returning — the command's own run time, or the deadline at which the
process group is terminated when the timer wins the race (section 4.4). -/
def elapsed_ms (params : ExecParams) (policy : SandboxPolicy) (cwd : FsPath)
    (env : EnvMap) : Nat :=
  let rules := resolve policy cwd env
  let r := runOps rules params.ops
  match params.timeout_ms with
  | some t => min r.duration_ms t
  | none => r.duration_ms

/-- Modelled from the spec: `curl -I http://openai.com` — a direct HTTP
fetch, which must open and connect an internet-family socket. -/
def curlCmd : List Op := [.netConnect]

/-- Modelled from the spec: `wget -qO- http://openai.com` — a direct HTTP
fetch through a socket. -/
def wgetCmd : List Op := [.netConnect]

/-- Modelled from the spec: `ping -c 1 8.8.8.8` — raw-socket ICMP. -/
def pingCmd : List Op := [.netConnect]

/-- Modelled from the spec: `nc -z 127.0.0.1 80` — a zero-length TCP
probe. -/
def ncCmd : List Op := [.netConnect]

/-- Modelled from the spec: `ssh -o BatchMode=yes -o ConnectTimeout=1
github.com` — a TCP connection attempt. -/
def sshCmd : List Op := [.netConnect]

/-- Modelled from the spec: `getent ahosts openai.com` — name resolution
that itself opens sockets. -/
def getentCmd : List Op := [.netConnect]

/-- Modelled from the spec: `bash -c "echo hi > /dev/tcp/127.0.0.1/80"` —
shell pseudo-device network redirection, a socket under the hood. -/
def devTcpCmd : List Op := [.netConnect]

/-- The network-originating commands exercised by the test suite. -/
def networkCommands : List (List Op) :=
  [curlCmd, wgetCmd, pingCmd, ncCmd, sshCmd, getentCmd, devTcpCmd]

/-- Modelled from the spec: `sleep 2` — a command that runs for two seconds
and then exits 0. -/
def sleepCmd : List Op := [.sleep 2000]

/-! ## Theorems -/

/-- **C9.** `FileSearchPopup::set_matches` drops stale results atomically:
when the supplied query differs from the current `pending_query` (and they
are not both empty), the call leaves every field of the popup unchanged. -/
theorem set_matches_stale_is_noop (p : FileSearchPopup) (q : String)
    (ms : List FileMatch) (hne : q ≠ p.pending_query)
    (hnb : ¬(q = "" ∧ p.pending_query = "")) :
    p.set_matches q ms = p := by
  unfold FileSearchPopup.set_matches
  rw [if_pos ⟨hne, hnb⟩]

/-- Witness for C9: a popup freshly constructed has `pending_query = ""`, so a
result for query `"x"` is stale and discarded wholesale. -/
theorem set_matches_stale_is_noop_witness :
    ("x" ≠ FileSearchPopup.new.pending_query ∧
      ¬("x" = "" ∧ FileSearchPopup.new.pending_query = "")) ∧
      FileSearchPopup.set_matches FileSearchPopup.new "x"
        [{ score := 0, path := "f", indices := none }] = FileSearchPopup.new :=
  ⟨⟨by decide, by decide⟩,
    set_matches_stale_is_noop FileSearchPopup.new "x"
      [{ score := 0, path := "f", indices := none }] (by decide) (by decide)⟩

/-- **C6.** The Outcome Classifier returns `Ok(ExecOutput)` whenever the
timeout did not fire and no denial-attributable signal was observed — even
when the exit code is non-zero; an ambiguous policy-caused failure is
reported as a successful call carrying a failing `ExecOutput`. -/
theorem classify_ok_without_timeout_or_signal (r : RunResult)
    (h : r.denied_signal = false) :
    classify r false =
      .ok { exit_code := r.exit_code, stdout := r.stdout, stderr := r.stderr } := by
  unfold classify
  simp [h]

/-- A sample raw status: exit code 3, no denial signal, no timeout. -/
def sampleFailingRun : RunResult :=
  { exit_code := 3, stdout := "o", stderr := "e", denied_signal := false
    duration_ms := 7 }

/-- Witness for C6: a run that exited with code 3, no timeout, no denial
signal, is classified as `Ok` with exit code 3. -/
theorem classify_ok_without_timeout_or_signal_witness :
    sampleFailingRun.denied_signal = false ∧
      classify sampleFailingRun false =
        .ok { exit_code := 3, stdout := "o", stderr := "e" } :=
  ⟨rfl, classify_ok_without_timeout_or_signal sampleFailingRun rfl⟩

/-- **C7.** The Rule Resolver is pure and deterministic: two calls to
`resolve` with the same policy, the same cwd and the same environment yield
identical `ResolvedRules` — same writable set, same reserved read-only set,
same network flag. -/
theorem resolve_deterministic (p1 p2 : SandboxPolicy) (c1 c2 : FsPath)
    (e1 e2 : EnvMap) (hp : p1 = p2) (hc : c1 = c2) (he : e1 = e2) :
    resolve p1 c1 e1 = resolve p2 c2 e2 ∧
      (resolve p1 c1 e1).writable = (resolve p2 c2 e2).writable ∧
      (resolve p1 c1 e1).reserved_readonly = (resolve p2 c2 e2).reserved_readonly ∧
      (resolve p1 c1 e1).network_allowed = (resolve p2 c2 e2).network_allowed := by
  subst hp; subst hc; subst he
  exact ⟨rfl, rfl, rfl, rfl⟩

/-- Witness for C7: two syntactically separate calls on a concrete
`WorkspaceWrite` policy agree. -/
theorem resolve_deterministic_witness :
    (SandboxPolicy.workspaceWrite [["r"]] false true true =
        SandboxPolicy.workspaceWrite [["r"]] false true true) ∧
      resolve (SandboxPolicy.workspaceWrite [["r"]] false true true) ["c"]
          [("TMPDIR", ["tmp", "t"])] =
        resolve (SandboxPolicy.workspaceWrite [["r"]] false true true) ["c"]
          [("TMPDIR", ["tmp", "t"])] :=
  ⟨rfl, (resolve_deterministic _ _ _ _ _ _ rfl rfl rfl).1⟩

/-- **C4.** Writing to the null device succeeds with exit code 0 under every
active policy — including a write-denying `WorkspaceWrite` with no writable
roots and `ReadOnly`. -/
theorem dev_null_write_succeeds (policy : SandboxPolicy) (cwd : FsPath)
    (env : EnvMap) (tmo : Option Nat) (esc : Option Bool) (just : Option String) :
    process_exec_tool_call
        { ops := [.writeFile devNull], timeout_ms := tmo,
          with_escalated_permissions := esc, justification := just }
        policy cwd env =
      .ok { exit_code := 0, stdout := "", stderr := "" } := by
  have hwa : writeAllowed (resolve policy cwd env) devNull = true := by
    simp [writeAllowed]
  unfold process_exec_tool_call
  simp only [runOps, hwa, if_true]
  cases tmo <;> simp [classify]

/-- **C3.** A `sleep 2` command run with `timeout_ms = 50` is terminated and
reported via the Timeout error kind, not via an ordinary `Ok` with non-zero
exit; the executor holds the child exactly until the 50 ms deadline (no
overshoot in the model, where the process group is killed at the deadline). -/
theorem sleep_two_seconds_times_out (policy : SandboxPolicy) (cwd : FsPath)
    (env : EnvMap) (esc : Option Bool) (just : Option String) :
    process_exec_tool_call
        { ops := sleepCmd, timeout_ms := some 50,
          with_escalated_permissions := esc, justification := just }
        policy cwd env =
      .error SandboxErr.timeout ∧
      elapsed_ms
        { ops := sleepCmd, timeout_ms := some 50,
          with_escalated_permissions := esc, justification := just }
        policy cwd env = 50 := by
  constructor
  · unfold process_exec_tool_call
    simp [sleepCmd, runOps, classify]
  · unfold elapsed_ms
    simp [sleepCmd, runOps]

/-- The resolver forwards the policy's network flag. -/
lemma resolve_network_allowed (policy : SandboxPolicy) (cwd : FsPath)
    (env : EnvMap) :
    (resolve policy cwd env).network_allowed = policy.network_access := by
  cases policy <;> rfl

/-- **C1.** Under any policy with `network_access = false`, each of the
network-originating commands (curl, wget, ping, nc, ssh, getent ahosts,
bash `/dev/tcp` redirection) run through `process_exec_tool_call` yields
either a `Denied` error or an `Ok` output with non-zero exit code — never an
`Ok` output with exit code 0. -/
theorem network_commands_blocked (policy : SandboxPolicy) (cwd : FsPath)
    (env : EnvMap) (cmd : List Op) (tmo : Option Nat) (esc : Option Bool)
    (just : Option String) (hcmd : cmd ∈ networkCommands)
    (hnet : policy.network_access = false) :
    (∃ out, process_exec_tool_call
        { ops := cmd, timeout_ms := tmo, with_escalated_permissions := esc,
          justification := just } policy cwd env = .error (.denied out)) ∨
    (∃ out, process_exec_tool_call
        { ops := cmd, timeout_ms := tmo, with_escalated_permissions := esc,
          justification := just } policy cwd env = .ok out ∧
        out.exit_code ≠ 0) := by
  right
  have hcmd' : cmd = [Op.netConnect] := by
    simp only [networkCommands, curlCmd, wgetCmd, pingCmd, ncCmd, sshCmd,
      getentCmd, devTcpCmd, List.mem_cons, List.mem_singleton,
      List.not_mem_nil, or_false] at hcmd
    rcases hcmd with h | h | h | h | h | h | h <;> exact h
  subst hcmd'
  have hna : (resolve policy cwd env).network_allowed = false := by
    rw [resolve_network_allowed, hnet]
  refine ⟨{ exit_code := 1, stdout := "", stderr := "" }, ?_, by decide⟩
  unfold process_exec_tool_call
  simp only [runOps, hna, Bool.false_eq_true, if_false]
  cases tmo <;> simp [classify]

/-- Witness for C1: `curl` under the read-only policy returns `Ok` with a
non-zero exit code. -/
theorem network_commands_blocked_witness :
    (curlCmd ∈ networkCommands ∧ SandboxPolicy.readOnly.network_access = false) ∧
      ((∃ out, process_exec_tool_call
          { ops := curlCmd, timeout_ms := some 2000,
            with_escalated_permissions := none, justification := none }
          SandboxPolicy.readOnly ["c"] [] = .error (.denied out)) ∨
        (∃ out, process_exec_tool_call
          { ops := curlCmd, timeout_ms := some 2000,
            with_escalated_permissions := none, justification := none }
          SandboxPolicy.readOnly ["c"] [] = .ok out ∧ out.exit_code ≠ 0)) :=
  ⟨⟨by decide, rfl⟩,
    network_commands_blocked SandboxPolicy.readOnly ["c"] [] curlCmd (some 2000)
      none none (by decide) rfl⟩

/-- A path inside the reserved `<root>/<meta>` subtree is never the null
device, since its components include `.git` or `.codex`. -/
lemma not_dev_null_of_under_meta (R : FsPath) (meta_dir : String)
    (hmeta : meta_dir = ".git" ∨ meta_dir = ".codex") (p : FsPath)
    (hp : isUnder (R ++ [meta_dir]) p = true) : (p == devNull) = false := by
  rw [beq_eq_false_iff_ne]
  intro hEq
  have hpre : R ++ [meta_dir] <+: p := by
    rw [← List.isPrefixOf_iff_prefix]
    exact hp
  obtain ⟨t, ht⟩ := hpre
  have hmem : meta_dir ∈ p := by
    rw [← ht]
    simp
  rw [hEq] at hmem
  simp only [devNull, List.mem_cons, List.not_mem_nil, or_false,
    List.mem_singleton] at hmem
  rcases hmeta with h | h <;> rcases hmem with h2 | h2 <;> rw [h] at h2 <;>
    simp at h2

/-- **C2.** Under `WorkspaceWrite { writable_roots = [R] }`, a write to any
path inside `R/.git` or `R/.codex` fails (the call errors or the output has
non-zero exit code), while a read of a file there succeeds with exit code 0
(file contents are not modelled: reads enjoy broad read access). -/
theorem reserved_subtree_read_only (R : FsPath) (meta_dir : String)
    (hmeta : meta_dir = ".git" ∨ meta_dir = ".codex") (net exT exS : Bool)
    (cwd : FsPath) (env : EnvMap) (tmo : Option Nat) (esc : Option Bool)
    (just : Option String) (p : FsPath)
    (hp : isUnder (R ++ [meta_dir]) p = true) :
    ((∃ err, process_exec_tool_call
        { ops := [.writeFile p], timeout_ms := tmo,
          with_escalated_permissions := esc, justification := just }
        (.workspaceWrite [R] net exT exS) cwd env = .error err) ∨
      (∃ out, process_exec_tool_call
        { ops := [.writeFile p], timeout_ms := tmo,
          with_escalated_permissions := esc, justification := just }
        (.workspaceWrite [R] net exT exS) cwd env = .ok out ∧
        out.exit_code ≠ 0)) ∧
    (∃ out, process_exec_tool_call
        { ops := [.readFile p], timeout_ms := tmo,
          with_escalated_permissions := esc, justification := just }
        (.workspaceWrite [R] net exT exS) cwd env = .ok out ∧
        out.exit_code = 0) := by
  have hres : ((resolve (.workspaceWrite [R] net exT exS) cwd env).reserved_readonly.any
      (fun r => isUnder r p)) = true := by
    rw [List.any_eq_true]
    refine ⟨R ++ [meta_dir], ?_, hp⟩
    rcases hmeta with h | h <;> rw [h] <;> simp [resolve]
  have hwa : writeAllowed (resolve (.workspaceWrite [R] net exT exS) cwd env) p = false := by
    unfold writeAllowed
    rw [not_dev_null_of_under_meta R meta_dir hmeta p hp, hres]
    simp
  constructor
  · right
    refine ⟨{ exit_code := 1, stdout := "", stderr := "" }, ?_, by decide⟩
    unfold process_exec_tool_call
    simp only [runOps, hwa, Bool.false_eq_true, if_false]
    cases tmo <;> simp [classify]
  · refine ⟨{ exit_code := 0, stdout := "", stderr := "" }, ?_, rfl⟩
    unfold process_exec_tool_call
    simp only [runOps]
    cases tmo <;> simp [classify]

/-- Witness for C2: with writable root `/r`, writing `/r/.git/f` fails with
exit code 1 and reading it succeeds with exit code 0. -/
theorem reserved_subtree_read_only_witness :
    ((".git" : String) = ".git" ∨ (".git" : String) = ".codex") ∧
      isUnder (["r"] ++ [".git"]) ["r", ".git", "f"] = true ∧
      (((∃ err, process_exec_tool_call
          { ops := [.writeFile ["r", ".git", "f"]], timeout_ms := some 200,
            with_escalated_permissions := none, justification := none }
          (.workspaceWrite [["r"]] false true true) ["c"] [] = .error err) ∨
        (∃ out, process_exec_tool_call
          { ops := [.writeFile ["r", ".git", "f"]], timeout_ms := some 200,
            with_escalated_permissions := none, justification := none }
          (.workspaceWrite [["r"]] false true true) ["c"] [] = .ok out ∧
          out.exit_code ≠ 0)) ∧
      (∃ out, process_exec_tool_call
          { ops := [.readFile ["r", ".git", "f"]], timeout_ms := some 200,
            with_escalated_permissions := none, justification := none }
          (.workspaceWrite [["r"]] false true true) ["c"] [] = .ok out ∧
          out.exit_code = 0)) :=
  ⟨Or.inl rfl, by decide,
    reserved_subtree_read_only ["r"] ".git" (Or.inl rfl) false true true ["c"] []
      (some 200) none none ["r", ".git", "f"] (by decide)⟩

/-- **C5 counterexample.** The claim's success half — "a command writing a
file at a path under `R` completes with exit code 0" — is false as stated:
with writable root `/r`, the path `/r/.git/f` is under `R` yet the write
fails with exit code 1, because `R/.git` is a reserved read-only subtree. -/
theorem workspace_write_counterexample :
    isUnder ["r"] ["r", ".git", "f"] = true ∧
      process_exec_tool_call
        { ops := [.writeFile ["r", ".git", "f"]], timeout_ms := some 200,
          with_escalated_permissions := none, justification := none }
        (.workspaceWrite [["r"]] false true true) ["c"] [] =
        .ok { exit_code := 1, stdout := "", stderr := "" } ∧
      (1 : Int) ≠ 0 :=
  ⟨by decide, rfl, by decide⟩

/-- **C5 (amended).** Under `WorkspaceWrite { writable_roots = [R] }`, a
write to a path `p` under `R` succeeds with exit code 0 provided `p` is not
inside a reserved `.git`/`.codex` subtree and `R` itself survives the tmp
exclusions into the resolved writable set; and a write to a path `q` outside
every resolved writable region (and other than the null device) fails with a
non-zero exit code. -/
theorem workspace_write_scoping (R : FsPath) (net exT exS : Bool)
    (cwd : FsPath) (env : EnvMap) (tmo : Option Nat) (esc : Option Bool)
    (just : Option String) (p q : FsPath)
    (hpR : isUnder R p = true)
    (hpres : ((resolve (.workspaceWrite [R] net exT exS) cwd env).reserved_readonly.any
      (fun r => isUnder r p)) = false)
    (hRw : R ∈ (resolve (.workspaceWrite [R] net exT exS) cwd env).writable)
    (hqw : ((resolve (.workspaceWrite [R] net exT exS) cwd env).writable.any
      (fun r => isUnder r q)) = false)
    (hqd : q ≠ devNull) :
    process_exec_tool_call
        { ops := [.writeFile p], timeout_ms := tmo,
          with_escalated_permissions := esc, justification := just }
        (.workspaceWrite [R] net exT exS) cwd env =
      .ok { exit_code := 0, stdout := "", stderr := "" } ∧
    (∃ out, process_exec_tool_call
        { ops := [.writeFile q], timeout_ms := tmo,
          with_escalated_permissions := esc, justification := just }
        (.workspaceWrite [R] net exT exS) cwd env = .ok out ∧
        out.exit_code ≠ 0) := by
  have hwa : writeAllowed (resolve (.workspaceWrite [R] net exT exS) cwd env) p = true := by
    unfold writeAllowed
    rw [hpres]
    have hany : ((resolve (.workspaceWrite [R] net exT exS) cwd env).writable.any
        (fun r => isUnder r p)) = true := by
      rw [List.any_eq_true]
      exact ⟨R, hRw, hpR⟩
    rw [hany]
    simp
  have hwq : writeAllowed (resolve (.workspaceWrite [R] net exT exS) cwd env) q = false := by
    unfold writeAllowed
    rw [hqw, beq_eq_false_iff_ne.mpr hqd]
    simp
  constructor
  · unfold process_exec_tool_call
    simp only [runOps, hwa, if_true]
    cases tmo <;> simp [classify]
  · refine ⟨{ exit_code := 1, stdout := "", stderr := "" }, ?_, by decide⟩
    unfold process_exec_tool_call
    simp only [runOps, hwq, Bool.false_eq_true, if_false]
    cases tmo <;> simp [classify]

/-- Witness for C5 (amended): writable root `/r`, write to `/r/x` succeeds
with exit 0, write to `/z` (outside `cwd = /c` and `/r`) fails with
non-zero exit. -/
theorem workspace_write_scoping_witness :
    (isUnder ["r"] ["r", "x"] = true ∧
      ["r"] ∈ (resolve (.workspaceWrite [["r"]] false true true) ["c"] []).writable ∧
      (["z"] : FsPath) ≠ devNull) ∧
      (process_exec_tool_call
          { ops := [.writeFile ["r", "x"]], timeout_ms := some 200,
            with_escalated_permissions := none, justification := none }
          (.workspaceWrite [["r"]] false true true) ["c"] [] =
        .ok { exit_code := 0, stdout := "", stderr := "" } ∧
        (∃ out, process_exec_tool_call
          { ops := [.writeFile ["z"]], timeout_ms := some 200,
            with_escalated_permissions := none, justification := none }
          (.workspaceWrite [["r"]] false true true) ["c"] [] = .ok out ∧
          out.exit_code ≠ 0)) :=
  ⟨⟨by decide, by decide, by decide⟩,
    workspace_write_scoping ["r"] false true true ["c"] [] (some 200) none none
      ["r", "x"] ["z"] (by decide) (by decide) (by decide) (by decide) (by decide)⟩

/-- The part of the selection-visibility invariant that the popup actually
maintains: the selection is below the bottom of the visible window and is a
valid index into the displayed matches. -/
def SelInv (p : FileSearchPopup) : Prop :=
  ∀ sel, p.state.selected_idx = some sel →
    sel < p.state.scroll_top + MAX_POPUP_ROWS ∧ sel < p.displayed_count

/-- `ensure_selection_visible` keeps the selection and the displayed count. -/
lemma ensure_sel_fields (p : FileSearchPopup) :
    p.ensure_selection_visible.state.selected_idx = p.state.selected_idx ∧
      p.ensure_selection_visible.displayed_count = p.displayed_count := by
  unfold FileSearchPopup.ensure_selection_visible
  rcases h : p.state.selected_idx with _ | sel
  · simp [h]
  · simp only [h]
    split_ifs <;> simp [h]

/-- After `ensure_selection_visible`, the selection lies strictly below the
bottom of the visible window. -/
lemma ensure_sel_upper (p : FileSearchPopup) (sel : Nat)
    (h : p.state.selected_idx = some sel) :
    sel < p.ensure_selection_visible.state.scroll_top + MAX_POPUP_ROWS := by
  unfold FileSearchPopup.ensure_selection_visible
  simp only [h]
  split_ifs with h1 h2
  · simp only [MAX_POPUP_ROWS]
    simp
  · simp only [MAX_POPUP_ROWS] at h1 h2 ⊢
    simp only [ge_iff_le, not_lt] at h1 h2
    simp
    omega
  · simp only [MAX_POPUP_ROWS] at h1 h2 ⊢
    simp only [ge_iff_le, not_le, not_lt] at h1 h2
    omega

/-- `ScrollState.move_down` keeps the selection a valid index. -/
lemma move_down_sel_lt (s : ScrollState) (d : Nat) (hd : ¬ d = 0) (sel : Nat)
    (h : (s.move_down d).selected_idx = some sel) : sel < d := by
  unfold ScrollState.move_down at h
  rcases hs : s.selected_idx with _ | i <;> simp only [hs] at h
  · simp at h
    omega
  · simp at h
    omega

/-- `ScrollState.move_up` keeps the selection a valid index. -/
lemma move_up_sel_lt (s : ScrollState) (d : Nat) (hd : ¬ d = 0)
    (hI : ∀ i, s.selected_idx = some i → i < d) (sel : Nat)
    (h : (s.move_up d).selected_idx = some sel) : sel < d := by
  unfold ScrollState.move_up at h
  rcases hs : s.selected_idx with _ | i <;> simp only [hs] at h
  · simp at h
    omega
  · simp at h
    have hi := hI i hs
    omega

/-- `ScrollState.clamp_selection` leaves `scroll_top` alone. -/
lemma clamp_scroll_top (s : ScrollState) (d : Nat) :
    (s.clamp_selection d).scroll_top = s.scroll_top := by
  unfold ScrollState.clamp_selection
  split_ifs
  · rfl
  · rcases s.selected_idx <;> rfl

/-- What `ScrollState.clamp_selection` can select: a valid index that is no
larger than the previous selection (or `0` if there was none). -/
lemma clamp_sel_cases (s : ScrollState) (d : Nat) (sel : Nat)
    (h : (s.clamp_selection d).selected_idx = some sel) :
    sel < d ∧ (s.selected_idx = none → sel = 0) ∧
      (∀ i, s.selected_idx = some i → sel ≤ i) := by
  unfold ScrollState.clamp_selection at h
  split_ifs at h with hd
  rcases hs : s.selected_idx with _ | i
  · simp only [hs] at h
    simp at h
    refine ⟨by omega, fun _ => by omega, fun j hj => ?_⟩
    simp [hs] at hj
  · simp only [hs] at h
    simp at h
    refine ⟨by omega, fun hn => by simp at hn, fun j hj => ?_⟩
    simp at hj
    omega

/-- `set_query` either keeps the scroll state and displayed count, or resets
both. -/
lemma set_query_state (p : FileSearchPopup) (q : String) :
    ((p.set_query q).state = p.state ∧
        (p.set_query q).displayed_count = p.displayed_count) ∨
      ((p.set_query q).state = ScrollState.new ∧
        (p.set_query q).displayed_count = 0) := by
  unfold FileSearchPopup.set_query
  by_cases hk : strStartsWith q p.display_query
  · left
    simp [hk]
  · right
    simp [hk, ScrollState.reset, ScrollState.new]

/-- `set_matches` either ignores a stale result, or installs the matches and
clamps the selection against them. -/
lemma set_matches_state (p : FileSearchPopup) (q : String) (ms : List FileMatch) :
    p.set_matches q ms = p ∨
      ((p.set_matches q ms).state = p.state.clamp_selection ms.length ∧
        (p.set_matches q ms).displayed_count = ms.length) := by
  unfold FileSearchPopup.set_matches
  by_cases hc : q ≠ p.pending_query ∧ ¬(q = "" ∧ p.pending_query = "")
  · left
    rw [if_pos hc]
  · right
    rw [if_neg hc]
    exact ⟨rfl, rfl⟩

/-- `set_query` preserves the selection invariant. -/
lemma selInv_set_query (p : FileSearchPopup) (q : String) (hI : SelInv p) :
    SelInv (p.set_query q) := by
  intro sel hsel
  rcases set_query_state p q with ⟨h1, h2⟩ | ⟨h1, h2⟩
  · rw [h1] at hsel
    rw [h1, h2]
    exact hI sel hsel
  · rw [h1] at hsel
    simp [ScrollState.new] at hsel

/-- `set_matches` preserves the selection invariant. -/
lemma selInv_set_matches (p : FileSearchPopup) (q : String) (ms : List FileMatch)
    (hI : SelInv p) : SelInv (p.set_matches q ms) := by
  intro sel hsel
  rcases set_matches_state p q ms with h | ⟨h1, h2⟩
  · rw [h] at hsel ⊢
    exact hI sel hsel
  · rw [h1] at hsel
    rw [h1, h2, clamp_scroll_top]
    obtain ⟨hlt, hnone, hsome⟩ := clamp_sel_cases p.state ms.length sel hsel
    refine ⟨?_, hlt⟩
    have hM : 0 < MAX_POPUP_ROWS := by decide
    rcases hs : p.state.selected_idx with _ | i
    · have h0 := hnone hs
      omega
    · have h1i := hsome i hs
      have h2i := (hI i hs).1
      omega

/-- `move_up` preserves the selection invariant. -/
lemma selInv_move_up (p : FileSearchPopup) (hI : SelInv p) : SelInv p.move_up := by
  by_cases h0 : p.displayed_count = 0
  · unfold FileSearchPopup.move_up
    rw [if_pos h0]
    exact hI
  · unfold FileSearchPopup.move_up
    rw [if_neg h0]
    intro sel hsel
    have hf := ensure_sel_fields { p with state := p.state.move_up p.displayed_count }
    have hsel1 : (p.state.move_up p.displayed_count).selected_idx = some sel := by
      rw [← hf.1]
      exact hsel
    refine ⟨ensure_sel_upper _ sel hsel1, ?_⟩
    rw [hf.2]
    exact move_up_sel_lt p.state p.displayed_count h0
      (fun i hi => (hI i hi).2) sel hsel1

/-- `move_down` preserves the selection invariant. -/
lemma selInv_move_down (p : FileSearchPopup) (hI : SelInv p) : SelInv p.move_down := by
  by_cases h0 : p.displayed_count = 0
  · unfold FileSearchPopup.move_down
    rw [if_pos h0]
    exact hI
  · unfold FileSearchPopup.move_down
    rw [if_neg h0]
    intro sel hsel
    have hf := ensure_sel_fields { p with state := p.state.move_down p.displayed_count }
    have hsel1 : (p.state.move_down p.displayed_count).selected_idx = some sel := by
      rw [← hf.1]
      exact hsel
    refine ⟨ensure_sel_upper _ sel hsel1, ?_⟩
    rw [hf.2]
    exact move_down_sel_lt p.state p.displayed_count h0 sel hsel1

/-- Each popup operation preserves the selection invariant. -/
lemma selInv_applyOp (p : FileSearchPopup) (op : PopupOp) (hI : SelInv p) :
    SelInv (applyOp p op) := by
  cases op with
  | setQuery q => exact selInv_set_query p q hI
  | setMatches q ms => exact selInv_set_matches p q ms hI
  | moveUp => exact selInv_move_up p hI
  | moveDown => exact selInv_move_down p hI

/-- The selection invariant holds after any operation sequence from a state
satisfying it. -/
lemma selInv_runPopupOps (ops : List PopupOp) :
    ∀ p : FileSearchPopup, SelInv p → SelInv (runPopupOps ops p) := by
  induction ops with
  | nil => exact fun p hI => hI
  | cons op rest ih =>
    intro p hI
    exact ih (applyOp p op) (selInv_applyOp p op hI)

/-- **C8 (amended).** After any sequence of `set_query`, `set_matches`,
`move_up` and `move_down` from `FileSearchPopup::new()`, whenever
`selected_idx = Some(sel)` the selection is above the bottom of the window
(`sel < scroll_top + MAX_POPUP_ROWS`) and is a valid index into the
displayed matches; the lower half of the visibility invariant
(`scroll_top ≤ sel`) can be violated, since `set_matches` clamps the
selection without rescrolling. -/
theorem popup_selection_invariant (ops : List PopupOp) (sel : Nat)
    (h : (runPopupOps ops FileSearchPopup.new).state.selected_idx = some sel) :
    sel < (runPopupOps ops FileSearchPopup.new).state.scroll_top + MAX_POPUP_ROWS ∧
      (0 < (runPopupOps ops FileSearchPopup.new).displayed_count →
        sel < (runPopupOps ops FileSearchPopup.new).displayed_count) := by
  have hI : SelInv (runPopupOps ops FileSearchPopup.new) :=
    selInv_runPopupOps ops FileSearchPopup.new (fun s hs => by
      simp [FileSearchPopup.new, ScrollState.new] at hs)
  obtain ⟨h1, h2⟩ := hI sel h
  exact ⟨h1, fun _ => h2⟩

/-- Witness for C8 (amended): after installing one match and moving down,
row 0 is selected, visible, and a valid index. -/
theorem popup_selection_invariant_witness :
    ((runPopupOps [PopupOp.setQuery "a",
        PopupOp.setMatches "a" [{ score := 0, path := "f", indices := none }],
        PopupOp.moveDown] FileSearchPopup.new).state.selected_idx = some 0) ∧
      (0 < (runPopupOps [PopupOp.setQuery "a",
        PopupOp.setMatches "a" [{ score := 0, path := "f", indices := none }],
        PopupOp.moveDown] FileSearchPopup.new).state.scroll_top + MAX_POPUP_ROWS ∧
      (0 < (runPopupOps [PopupOp.setQuery "a",
        PopupOp.setMatches "a" [{ score := 0, path := "f", indices := none }],
        PopupOp.moveDown] FileSearchPopup.new).displayed_count →
        0 < (runPopupOps [PopupOp.setQuery "a",
        PopupOp.setMatches "a" [{ score := 0, path := "f", indices := none }],
        PopupOp.moveDown] FileSearchPopup.new).displayed_count)) :=
  ⟨rfl, popup_selection_invariant _ 0 rfl⟩

/-- The operation sequence refuting the claimed lower visibility bound:
load nine matches, scroll to the last row (which sets `scroll_top = 1`),
then a narrower query arrives with a single match. -/
def shrinkThenClampOps : List PopupOp :=
  [.setQuery "a", .setMatches "a"
      (List.replicate 9 { score := 0, path := "f", indices := none })] ++
    List.replicate 8 .moveDown ++
    [.setQuery "ab", .setMatches "ab" [{ score := 0, path := "f", indices := none }]]

/-- **C8 counterexample.** After `shrinkThenClampOps` the popup has
`selected_idx = Some(0)` but `scroll_top = 1`: the claimed invariant
`scroll_top ≤ sel` does not hold, because `set_matches` clamps the selection
to the shrunken match list without rescrolling. -/
theorem popup_selection_invariant_counterexample :
    (runPopupOps shrinkThenClampOps FileSearchPopup.new).state.selected_idx = some 0 ∧
      (runPopupOps shrinkThenClampOps FileSearchPopup.new).state.scroll_top = 1 ∧
      ¬ (∀ sel, (runPopupOps shrinkThenClampOps FileSearchPopup.new).state.selected_idx =
            some sel →
          (runPopupOps shrinkThenClampOps FileSearchPopup.new).state.scroll_top ≤ sel) :=
  ⟨rfl, rfl, fun hall => absurd (hall 0 rfl) (by decide)⟩

/-- `should_show` unfolded into its defining conditions. -/
lemma should_show_iff (bar : UsageStatusBar) :
    bar.should_show = true ↔
      (bar.dismissed = false ∧ ∃ snap, bar.snapshot = some snap ∧
        ((∃ w, snap.primary = some w ∧ THRESHOLD_PERCENT ≤ w.used_percent) ∨
          (∃ w, snap.secondary = some w ∧ THRESHOLD_PERCENT ≤ w.used_percent))) := by
  unfold UsageStatusBar.should_show
  rcases bar with ⟨snap, dism⟩
  cases dism
  · cases snap with
    | none => simp
    | some s =>
      cases hp : s.primary <;> cases hs : s.secondary <;>
        simp [hp, hs, ge_iff_le]
  · simp

/-- A non-significant update does not clear the dismissed flag. -/
lemma dismissed_after_update (bar : UsageStatusBar)
    (s : Option RateLimitSnapshotDisplay) (hd : bar.dismissed = true)
    (hns : bar.resets_dismiss s = false) :
    (bar.update_snapshot s).dismissed = true := by
  unfold UsageStatusBar.update_snapshot
  simp [hns, hd]

/-- A sequence of non-significant updates does not clear the dismissed
flag. -/
lemma dismissed_after_updates (snaps : List (Option RateLimitSnapshotDisplay)) :
    ∀ bar : UsageStatusBar, bar.dismissed = true →
      UsageStatusBar.no_significant_arrival bar snaps = true →
      (bar.update_many snaps).dismissed = true := by
  induction snaps with
  | nil =>
    intro bar hd _
    exact hd
  | cons s rest ih =>
    intro bar hd hns
    unfold UsageStatusBar.no_significant_arrival at hns
    rw [Bool.and_eq_true] at hns
    have h1 : bar.resets_dismiss s = false := by
      have h2 := hns.1
      simp at h2
      exact h2
    have h3 := ih (bar.update_snapshot s) (dismissed_after_update bar s hd h1) hns.2
    simpa [UsageStatusBar.update_many] using h3

/-- A dismissed bar is never shown. -/
lemma should_show_false_of_dismissed (bar : UsageStatusBar)
    (hd : bar.dismissed = true) : bar.should_show = false := by
  unfold UsageStatusBar.should_show
  simp [hd]

/-- A hidden bar contributes no footer text. -/
lemma footer_none_of_hidden (gld : Nat → String) (fmt0 : Rat → String)
    (bar : UsageStatusBar) (h : bar.should_show = false) :
    UsageStatusBar.get_footer_text gld fmt0 bar = none := by
  unfold UsageStatusBar.get_footer_text
  simp [h]

/-- **C10.** `should_show` is true iff the bar was not dismissed, a snapshot
is present, and some window's `used_percent` reaches the 70.0 threshold;
and after `dismiss()`, as long as no snapshot update is a significant change
(per `resets_dismiss`: max `used_percent` moving by at least 5.0, or a
percentage appearing or disappearing), `should_show` stays false and
`get_footer_text` returns `None` — for every choice of the duration and
percent renderers. -/
theorem usage_bar_visibility :
    (∀ bar : UsageStatusBar, bar.should_show = true ↔
      (bar.dismissed = false ∧ ∃ snap, bar.snapshot = some snap ∧
        ((∃ w, snap.primary = some w ∧ THRESHOLD_PERCENT ≤ w.used_percent) ∨
          (∃ w, snap.secondary = some w ∧ THRESHOLD_PERCENT ≤ w.used_percent)))) ∧
    (∀ (gld : Nat → String) (fmt0 : Rat → String) (bar : UsageStatusBar)
      (snaps : List (Option RateLimitSnapshotDisplay)),
      UsageStatusBar.no_significant_arrival bar.dismiss snaps = true →
      (bar.dismiss.update_many snaps).should_show = false ∧
        UsageStatusBar.get_footer_text gld fmt0 (bar.dismiss.update_many snaps) =
          none) := by
  constructor
  · exact should_show_iff
  · intro gld fmt0 bar snaps hns
    have hd : (bar.dismiss.update_many snaps).dismissed = true :=
      dismissed_after_updates snaps bar.dismiss rfl hns
    have hss := should_show_false_of_dismissed _ hd
    exact ⟨hss, footer_none_of_hidden gld fmt0 _ hss⟩

/-- A snapshot whose primary window sits at 85 percent. -/
def sampleSnapshot85 : RateLimitSnapshotDisplay :=
  { primary := some { used_percent := 85, resets_at := some "in 30m", window_minutes := some 300 }
    secondary := none }

/-- Witness for C10: a bar showing 85 percent is dismissed; an update that
clears the snapshot is not a significant arrival, so the bar stays hidden
and produces no footer text. -/
theorem usage_bar_visibility_witness :
    UsageStatusBar.no_significant_arrival
        (UsageStatusBar.dismiss { snapshot := some sampleSnapshot85, dismissed := false })
        [none] = true ∧
      ((UsageStatusBar.dismiss { snapshot := some sampleSnapshot85, dismissed := false
          }).update_many [none]).should_show = false ∧
      UsageStatusBar.get_footer_text (fun _ => "5h") (fun _ => "85")
        ((UsageStatusBar.dismiss { snapshot := some sampleSnapshot85, dismissed := false
          }).update_many [none]) = none :=
  ⟨rfl, usage_bar_visibility.2 (fun _ => "5h") (fun _ => "85")
    { snapshot := some sampleSnapshot85, dismissed := false } [none] rfl⟩

end Codex
